import Mathlib

/-
Verification of the microclimate dashboard's data-normalization and
derived-metrics pipeline (analysis_dashboard.py, spatial_dashboard.py).

Numbers that the Python code handles as floats are modelled as rationals
(ℚ); pandas timestamps are modelled as integers (any linearly ordered
parse result works, and the parsing functions `pd.to_datetime` /
`pd.to_numeric` with errors="coerce" are library externals, so they enter
the development as parameters `parseTs : String → Option Int` and
`parseNum : String → Option ℚ`, with `none` standing for NaT/NaN).
Fallible Python operations return `Except PyError`.
-/

/-- Errors a run of the modelled code can signal.  `keyError` models the
pandas/Python `KeyError` raised by a failed column lookup, `valueError`
models `ValueError` (e.g. `int(nan)`), and `indexError` models the
`IndexError` of `df.iloc[-1]` on an empty frame.  The constructor
`missingColumnError` is never produced by any definition translated from
the source: it names the `MissingColumnError` of the specification's
error taxonomy so that claims about it can be stated and compared with
what the code actually raises. -/
inductive PyError where
  | keyError (col : String)
  | valueError (msg : String)
  | indexError
  | missingColumnError (col : String)
deriving Repr, DecidableEq

/-- Python list indexing `l[i]`: a negative index counts from the end,
and an out-of-range index raises (modelled as `none`). -/
def pyListGet (l : List String) (i : Int) : Option String :=
  if h : 0 ≤ i ∧ i.toNat < l.length then some (l.get ⟨i.toNat, h.2⟩)
  else if h2 : i < 0 ∧ 0 ≤ i + l.length ∧ (i + l.length).toNat < l.length then
    some (l.get ⟨(i + l.length).toNat, h2.2.2⟩)
  else none

/-- Python `int(x)` on a float: truncation toward zero. -/
def ratTrunc (q : ℚ) : Int := if 0 ≤ q then ⌊q⌋ else -⌊-q⌋

/-- Python `int(x)` on a possibly-NaN float: `int(nan)` raises
`ValueError`. -/
def pyInt : Option ℚ → Except PyError Int
  | none => Except.error (PyError.valueError "cannot convert float NaN to integer")
  | some q => Except.ok (ratTrunc q)

/-- The eight compass labels of analysis_dashboard.py line 364. -/
def directions : List String := ["N", "NE", "E", "SE", "S", "SW", "W", "NW"]

/-- The index computed at analysis_dashboard.py line 365:
`int((wd_now + 22.5) // 45) % 8`.  Float floor-division followed by
`int(...)` of the integral float is the mathematical floor, and Python's
`%` with a positive modulus is `Int.emod`. -/
def cardinalIndex (a : ℚ) : Int := (⌊(a + 22.5) / 45⌋) % 8

/-- The cardinal-direction lookup `directions[int((wd_now + 22.5) // 45) % 8]`
of analysis_dashboard.py line 365, with Python list-indexing semantics. -/
def cardinalOfAngle (a : ℚ) : Option String := pyListGet directions (cardinalIndex a)

/-- Modelled from the spec: the spec's own cardinal-direction formula
`directions[int((angle + 22.5) // 45) % 8]` read as a total function
(the spec asserts the index is always in range).  Used only to state the
refinement claims against `cardinalOfAngle`. -/
def specCardinal (a : ℚ) : String :=
  (["N", "NE", "E", "SE", "S", "SW", "W", "NW"]).getD (cardinalIndex a).toNat ""

/-- One raw CSV record: the cell text of each column, keyed by column
name.  A column missing from a record reads as `none` (pandas NaN). -/
structure RawRow where
  cells : List (String × String)
deriving Repr, DecidableEq

/-- The table produced by `pd.read_csv`: the column names and the
records. -/
structure RawTable where
  cols : List String
  rows : List RawRow
deriving Repr, DecidableEq

/-- Reading one cell of a record. -/
def getCell (r : RawRow) (c : String) : Option String := r.cells.lookup c

/-- analysis_dashboard.py line 64: every column except `id_logger` and
`date_time`. -/
def numericCols (cols : List String) : List String :=
  cols.filter (fun c => !(["id_logger", "date_time"].contains c))

/-- A record paired with its original positional index and the result of
`pd.to_datetime(..., errors="coerce")` on its `date_time` cell (`none`
is NaT). -/
structure ParsedRow where
  idx : Nat
  raw : RawRow
  date_time : Option Int
deriving Repr, DecidableEq

/-- analysis_dashboard.py line 58: parse the `date_time` column,
unparseable entries becoming NaT. -/
def parsedRows (parseTs : String → Option Int) (t : RawTable) : List ParsedRow :=
  t.rows.enum.map (fun p =>
    { idx := p.1, raw := p.2, date_time := (getCell p.2 "date_time").bind parseTs })

/-- analysis_dashboard.py line 61: `df.dropna(subset=["date_time"])`. -/
def droppedRows (parseTs : String → Option Int) (t : RawTable) : List ParsedRow :=
  (parsedRows parseTs t).filter (fun r => r.date_time.isSome)

/-- One fully normalized sensor reading: original index, parsed
timestamp, raw logger id, and every other column coerced to numeric
(`none` is NaN). -/
structure SensorRow where
  idx : Nat
  date_time : Option Int
  id_logger : Option String
  nums : List (String × Option ℚ)
deriving Repr, DecidableEq

/-- analysis_dashboard.py lines 64-66: coerce every column except
`id_logger` and `date_time` with `pd.to_numeric(..., errors="coerce")`;
a cell that fails coercion becomes NaN, the row stays. -/
def coerceRow (parseNum : String → Option ℚ) (cols : List String) (r : ParsedRow) : SensorRow :=
  { idx := r.idx
    date_time := r.date_time
    id_logger := getCell r.raw "id_logger"
    nums := (numericCols cols).map (fun c => (c, (getCell r.raw c).bind parseNum)) }

/-- The rows after timestamp parsing, NaT-dropping and numeric coercion,
in their original order. -/
def coercedRows (parseTs : String → Option Int) (parseNum : String → Option ℚ)
    (t : RawTable) : List SensorRow :=
  (droppedRows parseTs t).map (coerceRow parseNum t.cols)

/-- Comparison of timestamp cells used by `sort_values("date_time")`:
NaT sorts last (pandas `na_position="last"`). -/
def tsLe : Option Int → Option Int → Prop
  | some x, some y => x ≤ y
  | some _, none => True
  | none, some _ => False
  | none, none => True

instance tsLe.instDecidable : DecidableRel tsLe := fun a b =>
  match a, b with
  | some x, some y => inferInstanceAs (Decidable (x ≤ y))
  | some _, none => inferInstanceAs (Decidable True)
  | none, some _ => inferInstanceAs (Decidable False)
  | none, none => inferInstanceAs (Decidable True)

/-- Row comparison for `sort_values("date_time")`. -/
def rowLe (r s : SensorRow) : Prop := tsLe r.date_time s.date_time

instance rowLe.instDecidable : DecidableRel rowLe := fun r s =>
  tsLe.instDecidable r.date_time s.date_time

instance rowLe.instIsTotal : IsTotal SensorRow rowLe where
  total r s := by
    unfold rowLe
    cases r.date_time <;> cases s.date_time <;> simp [tsLe] <;> omega

instance rowLe.instIsTrans : IsTrans SensorRow rowLe where
  trans r s u := by
    unfold rowLe
    cases r.date_time <;> cases s.date_time <;> cases u.date_time <;> simp [tsLe] <;> omega

/-- analysis_dashboard.py line 69, second half: `reset_index(drop=True)`
reassigns positional indices 0, 1, 2, ... to the sorted rows. -/
def reindexRows (l : List SensorRow) : List SensorRow :=
  l.enum.map (fun p => { p.2 with idx := p.1 })

/-- The normalized sensor table: the original column names plus the
normalized rows. -/
structure SensorDf where
  cols : List String
  rows : List SensorRow
deriving Repr, DecidableEq

/-- analysis_dashboard.py lines 55-69: the body of the CSV Normalizer's
`try` block.  `df["date_time"]` raises `KeyError` when the column is
absent; otherwise the rows are parsed, NaT rows dropped, the remaining
columns coerced, and the result sorted by timestamp and reindexed. -/
def normalizePipeline (parseTs : String → Option Int) (parseNum : String → Option ℚ)
    (t : RawTable) : Except PyError SensorDf :=
  if "date_time" ∈ t.cols then
    Except.ok
      { cols := t.cols
        rows := reindexRows (List.insertionSort rowLe (coercedRows parseTs parseNum t)) }
  else Except.error (PyError.keyError "date_time")

/-- Python `str(e)` for the modelled exceptions. -/
def pyErrorMsg : PyError → String
  | PyError.keyError c => "'" ++ c ++ "'"
  | PyError.valueError m => m
  | PyError.indexError => "single positional indexer is out-of-bounds"
  | PyError.missingColumnError c => "missing column: " ++ c

/-- What `load_microclimate_data` hands back to its caller: the loaded
frame (or `None`), and the error banner shown via `st.error` when the
`except` branch ran. -/
structure LoadResult where
  data : Option SensorDf
  shownError : Option String
deriving Repr, DecidableEq

/-- analysis_dashboard.py lines 52-84: `load_microclimate_data`.  Any
exception inside the `try` block is caught, reported through `st.error`
with the underlying cause, and turned into a `None` result. -/
def loadMicroclimateData (parseTs : String → Option Int) (parseNum : String → Option ℚ)
    (t : RawTable) : LoadResult :=
  match normalizePipeline parseTs parseNum t with
  | Except.ok df => { data := some df, shownError := none }
  | Except.error e =>
      { data := none, shownError := some ("Failed to process file: " ++ pyErrorMsg e) }

/-- analysis_dashboard.py lines 297-299: `main` stops ("no data") unless
the loader handed back a frame. -/
def mainHasData (r : LoadResult) : Bool := r.data.isSome

/-- Concrete timestamp parser used by the witnesses: recognizes the two
stamps "t1" < "t2". -/
def demoTs (s : String) : Option Int := ([("t1", (1 : Int)), ("t2", 2)]).lookup s

/-- Concrete numeric parser used by the witnesses: recognizes a few
digit strings, anything else fails coercion. -/
def demoNum (s : String) : Option ℚ :=
  ([("20", (20 : ℚ)), ("19", 19), ("18", 18), ("24", 24), ("23", 23), ("22", 22),
    ("28", 28), ("27", 27), ("26", 26), ("7", 7), ("1", 1), ("2", 2)]).lookup s

/-- Concrete uploaded sensor CSV used by the witnesses: one row with the
later stamp, one with an unparseable stamp, one with the earlier stamp
and an unparseable numeric cell. -/
def demoTable : RawTable :=
  { cols := ["date_time", "id_logger", "tt4_avg"]
    rows :=
      [ { cells := [("date_time", "t2"), ("id_logger", "log"), ("tt4_avg", "20")] },
        { cells := [("date_time", "zz"), ("id_logger", "log"), ("tt4_avg", "7")] },
        { cells := [("date_time", "t1"), ("id_logger", "log"), ("tt4_avg", "zz")] } ] }

/-- The normalized table the pipeline produces from `demoTable`. -/
def demoDf : SensorDf :=
  { cols := ["date_time", "id_logger", "tt4_avg"]
    rows :=
      [ { idx := 0, date_time := some 1, id_logger := some "log", nums := [("tt4_avg", none)] },
        { idx := 1, date_time := some 2, id_logger := some "log", nums := [("tt4_avg", some 20)] } ] }

/-- The coerced (pre-sort) row of `demoTable` whose `tt4_avg` cell "zz"
fails numeric coercion: the cell is NaN, the row survives. -/
def demoNullCellRow : SensorRow :=
  { idx := 2, date_time := some 1, id_logger := some "log", nums := [("tt4_avg", none)] }

/-- A raw table with no `date_time` column, used to exercise the load
failure path. -/
def demoNoDateTimeTable : RawTable :=
  { cols := ["id_logger", "tt4_avg"]
    rows := [{ cells := [("id_logger", "log"), ("tt4_avg", "20")] }] }

/-- A normalized frame whose `tt4_avg` column is absent, used to
exercise the chart builders' missing-column behaviour. -/
def demoMissingColDf : SensorDf := { cols := ["date_time"], rows := [] }

/-- A one-row frame in which the current (`wd4_now`) and averaged
(`wd4_avg`) wind directions differ. -/
def demoWindDf : SensorDf :=
  { cols := ["date_time", "wd4_now", "wd4_avg"]
    rows := [{ idx := 0, date_time := some 1, id_logger := some "log",
               nums := [("wd4_now", some 10), ("wd4_avg", some 200)] }] }

/-- The one-row frame of the spec's vertical-profile example. -/
def demoProfileDf : SensorDf :=
  { cols := ["date_time", "tt4_min", "tt4_avg", "tt4_max", "tt7_min", "tt7_avg",
             "tt7_max", "tt10_min", "tt10_avg", "tt10_max"]
    rows := [{ idx := 0, date_time := some 1, id_logger := some "log",
               nums := [("tt4_min", some 20), ("tt4_avg", some 24), ("tt4_max", some 28),
                        ("tt7_min", some 19), ("tt7_avg", some 23), ("tt7_max", some 27),
                        ("tt10_min", some 18), ("tt10_avg", some 22),
                        ("tt10_max", some 26)] }] }

/-- Reading the `date_time` column of the normalized frame, as the chart
builders do for their x axis: `KeyError` when the column is absent. -/
def colTs (df : SensorDf) : Except PyError (List (Option Int)) :=
  if "date_time" ∈ df.cols then Except.ok (df.rows.map (fun r => r.date_time))
  else Except.error (PyError.keyError "date_time")

/-- Reading a numeric column of the normalized frame: `KeyError` when
the column is absent, otherwise the per-row values (NaN as `none`). -/
def colNums (df : SensorDf) (c : String) : Except PyError (List (Option ℚ)) :=
  if c ∈ df.cols then Except.ok (df.rows.map (fun r => (r.nums.lookup c).getD none))
  else Except.error (PyError.keyError c)

/-- Reading one field of a single row (a pandas `Series` lookup such as
`latest[f"tt4_min"]`): `KeyError` when the column is absent. -/
def rowGet (df : SensorDf) (r : SensorRow) (c : String) : Except PyError (Option ℚ) :=
  if c ∈ df.cols then Except.ok ((r.nums.lookup c).getD none)
  else Except.error (PyError.keyError c)

/-- One plotly trace, reduced to the fields the claims talk about. -/
structure Trace where
  x : List (Option Int)
  y : List (Option ℚ)
  mode : String
deriving Repr, DecidableEq

/-- analysis_dashboard.py lines 94-123, one iteration of the height
loop of `create_temperature_comparison_chart`: the average line, the max
boundary line, and the min line with the fill, in source order. -/
def tempTracesAt (df : SensorDf) (h : String) : Except PyError (List Trace) := do
  let x1 ← colTs df
  let yAvg ← colNums df ("tt" ++ h ++ "_avg")
  let x2 ← colTs df
  let yMax ← colNums df ("tt" ++ h ++ "_max")
  let x3 ← colTs df
  let yMin ← colNums df ("tt" ++ h ++ "_min")
  pure [{ x := x1, y := yAvg, mode := "lines" },
        { x := x2, y := yMax, mode := "lines" },
        { x := x3, y := yMin, mode := "lines" }]

/-- analysis_dashboard.py lines 87-133: the temperature comparison chart,
with the loop over heights "4", "7", "10" unrolled. -/
def create_temperature_comparison_chart (df : SensorDf) : Except PyError (List Trace) := do
  let t4 ← tempTracesAt df "4"
  let t7 ← tempTracesAt df "7"
  let t10 ← tempTracesAt df "10"
  pure (t4 ++ t7 ++ t10)

/-- The wind-direction chart, reduced to the fields the claims talk
about: the scatter trace, the horizontal reference lines, and the y-axis
range. -/
structure WindChart where
  trace : Trace
  hlines : List ℚ
  yaxisRange : ℚ × ℚ
deriving Repr, DecidableEq

/-- analysis_dashboard.py lines 215-245: `create_wind_direction_chart`.
The scatter's y series is the `wd{height}_avg` column, the reference
lines are added at 360, 270, 180, 90, 0 in that order, and the y axis is
bounded to [0, 360]. -/
def create_wind_direction_chart (df : SensorDf) (height : String) :
    Except PyError WindChart := do
  let x ← colTs df
  let y ← colNums df ("wd" ++ height ++ "_avg")
  pure { trace := { x := x, y := y, mode := "markers" },
         hlines := [360, 270, 180, 90, 0],
         yaxisRange := (0, 360) }

/-- The vertical-profile chart: the heights on the vertical axis and the
three series on the horizontal axis. -/
structure ProfileChart where
  heights : List ℚ
  minSeries : List (Option ℚ)
  avgSeries : List (Option ℚ)
  maxSeries : List (Option ℚ)
deriving Repr, DecidableEq

/-- analysis_dashboard.py lines 247-291: `create_vertical_profile_chart`.
`df.iloc[-1]` raises `IndexError` on an empty frame; the three list
comprehensions read `{p}{h}_min`, then `{p}{h}_avg`, then `{p}{h}_max`
for h in [4, 7, 10], and the three traces are plotted against heights
[4, 7, 10] on the y axis. -/
def create_vertical_profile_chart (df : SensorDf) (p : String) :
    Except PyError ProfileChart := do
  let latest ← match df.rows.getLast? with
    | some r => Except.ok r
    | none => Except.error PyError.indexError
  let m4 ← rowGet df latest (p ++ "4_min")
  let m7 ← rowGet df latest (p ++ "7_min")
  let m10 ← rowGet df latest (p ++ "10_min")
  let a4 ← rowGet df latest (p ++ "4_avg")
  let a7 ← rowGet df latest (p ++ "7_avg")
  let a10 ← rowGet df latest (p ++ "10_avg")
  let x4 ← rowGet df latest (p ++ "4_max")
  let x7 ← rowGet df latest (p ++ "7_max")
  let x10 ← rowGet df latest (p ++ "10_max")
  pure { heights := [4, 7, 10]
         minSeries := [m4, m7, m10]
         avgSeries := [a4, a7, a10]
         maxSeries := [x4, x7, x10] }

/-- The columns the temperature comparison chart reads, in access
order. -/
def neededTempCols : List String :=
  ["date_time", "tt4_avg", "tt4_max", "tt4_min", "tt7_avg", "tt7_max", "tt7_min",
   "tt10_avg", "tt10_max", "tt10_min"]

/-- The columns the vertical profile chart reads for parameter `p`, in
access order. -/
def neededProfileCols (p : String) : List String :=
  [p ++ "4_min", p ++ "7_min", p ++ "10_min", p ++ "4_avg", p ++ "7_avg", p ++ "10_avg",
   p ++ "4_max", p ++ "7_max", p ++ "10_max"]

/-- One raw record of the site-metadata CSV, restricted to the columns
the claims talk about; a `none` cell is an empty/NaN field. -/
structure RawSiteRow where
  id_site : Option String
  nama_site : String
  provinsi : String
  kabupaten : String
  latitude : Option String
  longitude : Option String
  th_pengadaan : Option String
  merk : Option String
  alamat : Option String
deriving Repr, DecidableEq

/-- One normalized site-metadata row after the numeric coercions. -/
structure SiteRow where
  id_site : Option ℚ
  nama_site : String
  provinsi : String
  kabupaten : String
  latitude : Option ℚ
  longitude : Option ℚ
  th_pengadaan : Option ℚ
  merk : Option String
  alamat : Option String
deriving Repr, DecidableEq

/-- spatial_dashboard.py lines 23-26: coerce `latitude`, `longitude`,
`id_site` and `th_pengadaan` with `pd.to_numeric(..., errors="coerce")`;
a failed coercion becomes NaN. -/
def coerceSiteRow (parseNum : String → Option ℚ) (r : RawSiteRow) : SiteRow :=
  { id_site := r.id_site.bind parseNum
    nama_site := r.nama_site
    provinsi := r.provinsi
    kabupaten := r.kabupaten
    latitude := r.latitude.bind parseNum
    longitude := r.longitude.bind parseNum
    th_pengadaan := r.th_pengadaan.bind parseNum
    merk := r.merk
    alamat := r.alamat }

/-- spatial_dashboard.py lines 17-31: the Metadata Normalizer.  After
the coercions, `df.dropna(subset=["latitude", "longitude"])` removes
exactly the rows with a NaN coordinate. -/
def load_site_metadata (parseNum : String → Option ℚ) (rows : List RawSiteRow) :
    List SiteRow :=
  (rows.map (coerceSiteRow parseNum)).filter
    (fun r => r.latitude.isSome && r.longitude.isSome)

/-- One folium marker, reduced to the fields the claims talk about:
its position and its style (color, icon). -/
structure Marker where
  lat : Option ℚ
  lon : Option ℚ
  color : String
  icon : String
deriving Repr, DecidableEq

/-- spatial_dashboard.py lines 58-90, one iteration of the marker loop:
`int(site["id_site"])` (a `ValueError` on NaN), the comparison with the
selected id, and the resulting marker style — red star when equal, blue
info-sign otherwise. -/
def markerFor (selected : Int) (site : SiteRow) : Except PyError Marker :=
  (pyInt site.id_site).map (fun i =>
    if i = selected then
      { lat := site.latitude, lon := site.longitude, color := "red", icon := "star" }
    else
      { lat := site.latitude, lon := site.longitude, color := "blue", icon := "info-sign" })

/-- The marker loop of spatial_dashboard.py lines 58-90: markers are
emitted in row order, and the loop raises at the first row it cannot
convert. -/
def mapMarkers (selected : Int) : List SiteRow → Except PyError (List Marker)
  | [] => Except.ok []
  | site :: rest => do
      let m ← markerFor selected site
      let ms ← mapMarkers selected rest
      pure (m :: ms)

/-- spatial_dashboard.py lines 37-95: `create_indonesia_map`, reduced to
the list of markers it adds. -/
def create_indonesia_map (df : List SiteRow) (selected_site_id : Int) :
    Except PyError (List Marker) :=
  mapMarkers selected_site_id df

/-- The marker the amended C7 statement predicts for one metadata row:
positioned at the row's own coordinates, highlighted (red star) exactly
when the row's site id, truncated to an integer, equals the selected id,
default-styled (blue info-sign) otherwise.  Used only to state the
per-row claim against `create_indonesia_map`. -/
def claimMarker (sel : Int) (site : SiteRow) : Marker :=
  if site.id_site.map ratTrunc = some sel then
    Marker.mk site.latitude site.longitude "red" "star"
  else
    Marker.mk site.latitude site.longitude "blue" "info-sign"

/-- A fully-populated raw metadata record. -/
def demoSiteGood : RawSiteRow :=
  { id_site := some "7", nama_site := "SiteA", provinsi := "Prov", kabupaten := "Kab",
    latitude := some "1", longitude := some "2", th_pengadaan := some "2020",
    merk := some "Brand", alamat := some "Addr" }

/-- A raw metadata record with empty `id_site` and `th_pengadaan` but
valid coordinates: the Normalizer must keep it. -/
def demoSiteNullYear : RawSiteRow :=
  { id_site := none, nama_site := "SiteB", provinsi := "Prov", kabupaten := "Kab",
    latitude := some "1", longitude := some "2", th_pengadaan := none,
    merk := none, alamat := none }

/-- A raw metadata record whose latitude cell fails numeric coercion:
the Normalizer must drop it. -/
def demoSiteBadLat : RawSiteRow :=
  { id_site := some "7", nama_site := "SiteC", provinsi := "Prov", kabupaten := "Kab",
    latitude := some "zz", longitude := some "2", th_pengadaan := some "2020",
    merk := none, alamat := none }

/-- Two normalized metadata rows sharing the same site id 7. -/
def demoDupSiteA : SiteRow :=
  { id_site := some 7, nama_site := "SiteA", provinsi := "Prov", kabupaten := "Kab",
    latitude := some 1, longitude := some 2, th_pengadaan := some 2020,
    merk := none, alamat := none }

/-- Second normalized metadata row with the duplicated site id 7. -/
def demoDupSiteB : SiteRow :=
  { id_site := some 7, nama_site := "SiteB", provinsi := "Prov", kabupaten := "Kab",
    latitude := some 3, longitude := some 4, th_pengadaan := some 2021,
    merk := none, alamat := none }

/-- Three normalized metadata rows with distinct site ids 1, 2, 3. -/
def demoSites : List SiteRow :=
  [ { id_site := some 1, nama_site := "S1", provinsi := "P1", kabupaten := "K1",
      latitude := some 1, longitude := some 2, th_pengadaan := none,
      merk := none, alamat := none },
    { id_site := some 2, nama_site := "S2", provinsi := "P2", kabupaten := "K2",
      latitude := some 3, longitude := some 4, th_pengadaan := none,
      merk := none, alamat := none },
    { id_site := some 3, nama_site := "S3", provinsi := "P3", kabupaten := "K3",
      latitude := some 5, longitude := some 6, th_pengadaan := none,
      merk := none, alamat := none } ]

/-- A normalized metadata row whose site id is NaN (null after coercion)
but whose coordinates are valid — C4 shows the Metadata Normalizer
keeps such a row, so the Map Builder can receive it. -/
def demoNullIdSite : SiteRow :=
  { id_site := none, nama_site := "SiteN", provinsi := "Prov", kabupaten := "Kab",
    latitude := some 5, longitude := some 6, th_pengadaan := none,
    merk := none, alamat := none }

theorem cardinalIndex_nonneg (a : ℚ) : 0 ≤ cardinalIndex a := by
  unfold cardinalIndex
  exact Int.emod_nonneg _ (by norm_num)

theorem cardinalIndex_lt (a : ℚ) : cardinalIndex a < 8 := by
  unfold cardinalIndex
  exact Int.emod_lt_of_pos _ (by norm_num)

theorem pyListGet_eq_getD (l : List String) (i : Int) (h0 : 0 ≤ i)
    (hlt : i.toNat < l.length) : pyListGet l i = some (l.getD i.toNat "") := by
  unfold pyListGet
  rw [dif_pos ⟨h0, hlt⟩]
  simp [List.getD_eq_getElem?_getD, List.getElem?_eq_getElem hlt]

theorem cardinalOfAngle_eq_some (a : ℚ) :
    cardinalOfAngle a = some (directions.getD (cardinalIndex a).toNat "") := by
  have hlt : (cardinalIndex a).toNat < directions.length := by
    have h8 := cardinalIndex_lt a
    have h0 := cardinalIndex_nonneg a
    simp only [directions, List.length_cons, List.length_nil]
    omega
  exact pyListGet_eq_getD _ _ (cardinalIndex_nonneg a) hlt

/-- C1: for every wind-direction angle in [0, 360), the cardinal label of
analysis_dashboard.py line 365 equals the spec's formula
`directions[int((angle + 22.5) // 45) % 8]`, and in particular the
angles 0, 45, 90, 180 and 359 map to N, NE, E, S and N (wraparound at
360°/0°). -/
theorem cardinal_formula_matches_spec :
    (∀ a : ℚ, 0 ≤ a → a < 360 → cardinalOfAngle a = some (specCardinal a)) ∧
    cardinalOfAngle 0 = some "N" ∧
    cardinalOfAngle 45 = some "NE" ∧
    cardinalOfAngle 90 = some "E" ∧
    cardinalOfAngle 180 = some "S" ∧
    cardinalOfAngle 359 = some "N" := by
  refine ⟨fun a _ _ => ?_, ?_, ?_, ?_, ?_, ?_⟩
  · rw [cardinalOfAngle_eq_some]
    rfl
  · have h : cardinalIndex 0 = 0 := by norm_num [cardinalIndex]
    unfold cardinalOfAngle
    rw [h]; rfl
  · have h : cardinalIndex 45 = 1 := by norm_num [cardinalIndex]
    unfold cardinalOfAngle
    rw [h]; rfl
  · have h : cardinalIndex 90 = 2 := by norm_num [cardinalIndex]
    unfold cardinalOfAngle
    rw [h]; rfl
  · have h : cardinalIndex 180 = 4 := by norm_num [cardinalIndex]
    unfold cardinalOfAngle
    rw [h]; rfl
  · have h : cardinalIndex 359 = 0 := by norm_num [cardinalIndex]
    unfold cardinalOfAngle
    rw [h]; rfl

/-- Witness for C1: the general refinement applied at the concrete
angle 17, which lies in [0, 360) and maps to N. -/
theorem cardinal_formula_matches_spec_witness :
    cardinalOfAngle 17 = some (specCardinal 17) ∧ specCardinal 17 = "N" := by
  constructor
  · exact cardinal_formula_matches_spec.1 17 (by norm_num) (by norm_num)
  · have h : cardinalIndex 17 = 0 := by norm_num [cardinalIndex]
    unfold specCardinal
    rw [h]; rfl

/-- C10: for every (finite) angle, including negative values and values
at or above 360, the expression `directions[int((angle + 22.5) // 45) % 8]`
evaluates without error to one of the eight labels — the index is always
in 0..7 — and out-of-range input is silently wrapped: 360 and -1 both
map to N. -/
theorem cardinal_total_and_wraps :
    (∀ a : ℚ, 0 ≤ cardinalIndex a ∧ cardinalIndex a < 8 ∧
      ∃ s, cardinalOfAngle a = some s ∧ s ∈ directions) ∧
    cardinalOfAngle 360 = some "N" ∧
    cardinalOfAngle (-1) = some "N" := by
  refine ⟨fun a => ⟨cardinalIndex_nonneg a, cardinalIndex_lt a, ?_⟩, ?_, ?_⟩
  · have hlt : (cardinalIndex a).toNat < directions.length := by
      have h8 := cardinalIndex_lt a
      have h0 := cardinalIndex_nonneg a
      simp only [directions, List.length_cons, List.length_nil]
      omega
    refine ⟨directions.getD (cardinalIndex a).toNat "", cardinalOfAngle_eq_some a, ?_⟩
    rw [List.getD_eq_getElem?_getD, List.getElem?_eq_getElem hlt]
    exact List.getElem_mem hlt
  · have h : cardinalIndex 360 = 0 := by norm_num [cardinalIndex]
    unfold cardinalOfAngle
    rw [h]; rfl
  · have h : cardinalIndex (-1) = 0 := by norm_num [cardinalIndex]
    unfold cardinalOfAngle
    rw [h]; rfl

theorem countP_enumFrom {α : Type} (q : α → Bool) :
    ∀ (n : Nat) (l : List α),
      (List.enumFrom n l).countP (fun p => q p.2) = l.countP q := by
  intro n l
  induction l generalizing n with
  | nil => rfl
  | cons a l ih => simp [List.enumFrom, List.countP_cons, ih]

theorem countP_enum {α : Type} (q : α → Bool) (l : List α) :
    l.enum.countP (fun p => q p.2) = l.countP q :=
  countP_enumFrom q 0 l

theorem reindexRows_length (l : List SensorRow) :
    (reindexRows l).length = l.length := by
  simp [reindexRows, List.enum_length]

theorem reindexRows_map {α : Type} (l : List SensorRow) (g : SensorRow → α)
    (hg : ∀ (r : SensorRow) (i : Nat), g { r with idx := i } = g r) :
    (reindexRows l).map g = l.map g := by
  unfold reindexRows
  rw [List.map_map]
  have h : ∀ p ∈ l.enum, (g ∘ fun p : Nat × SensorRow => { p.2 with idx := p.1 }) p
      = (g ∘ Prod.snd) p := fun p _ => hg p.2 p.1
  rw [List.map_congr_left h, ← List.map_map, List.enum_map_snd]

theorem reindexRows_idx (l : List SensorRow) :
    (reindexRows l).map (fun r => r.idx) = List.range l.length := by
  unfold reindexRows
  rw [List.map_map]
  have h : ∀ p ∈ l.enum, ((fun r : SensorRow => r.idx) ∘
      fun p : Nat × SensorRow => { p.2 with idx := p.1 }) p = Prod.fst p := fun p _ => rfl
  rw [List.map_congr_left h, List.enum_map_fst]

theorem coercedRows_date_time_isSome (parseTs : String → Option Int)
    (parseNum : String → Option ℚ) (t : RawTable) :
    ∀ r ∈ coercedRows parseTs parseNum t, r.date_time.isSome := by
  intro r hr
  obtain ⟨s, hs, rfl⟩ := List.mem_map.mp hr
  have := (List.mem_filter.mp hs).2
  simpa [coerceRow] using this

/-- C2: for every sensor CSV, the Normalizer's output is sorted
non-decreasing by timestamp, re-indexed from 0 with no gaps, contains no
row with a null timestamp, and consists of exactly the input rows whose
timestamp parses (unparseable-timestamp rows are removed entirely). -/
theorem normalizer_sorted_reindexed_no_null_ts (parseTs : String → Option Int)
    (parseNum : String → Option ℚ) (t : RawTable) (df : SensorDf)
    (h : normalizePipeline parseTs parseNum t = Except.ok df) :
    List.Sorted tsLe (df.rows.map (fun r => r.date_time)) ∧
    (∀ r ∈ df.rows, r.date_time.isSome) ∧
    df.rows.map (fun r => r.idx) = List.range df.rows.length ∧
    df.rows.length =
      (t.rows.filter (fun r => ((getCell r "date_time").bind parseTs).isSome)).length := by
  unfold normalizePipeline at h
  by_cases hdt : "date_time" ∈ t.cols
  swap
  · rw [if_neg hdt] at h
    exact absurd h (by simp)
  rw [if_pos hdt] at h
  have hrows : df.rows
      = reindexRows (List.insertionSort rowLe (coercedRows parseTs parseNum t)) := by
    cases h
    rfl
  have hsorted : List.Sorted rowLe
      (List.insertionSort rowLe (coercedRows parseTs parseNum t)) :=
    List.sorted_insertionSort rowLe _
  refine ⟨?_, ?_, ?_, ?_⟩
  · rw [hrows, reindexRows_map _ (fun r => r.date_time) (fun r i => rfl)]
    exact List.pairwise_map.mpr hsorted
  · intro r hr
    rw [hrows] at hr
    have hmem : r.date_time ∈ (reindexRows
        (List.insertionSort rowLe (coercedRows parseTs parseNum t))).map
          (fun r => r.date_time) :=
      List.mem_map_of_mem _ hr
    rw [reindexRows_map _ (fun r => r.date_time) (fun r i => rfl)] at hmem
    obtain ⟨s, hs, hdtEq⟩ := List.mem_map.mp hmem
    rw [← hdtEq]
    exact coercedRows_date_time_isSome parseTs parseNum t s
      ((List.mem_insertionSort rowLe).mp hs)
  · rw [hrows, reindexRows_idx, reindexRows_length, List.length_insertionSort]
  · rw [hrows, reindexRows_length, List.length_insertionSort]
    unfold coercedRows droppedRows parsedRows
    rw [List.length_map, ← List.countP_eq_length_filter, List.countP_map,
      ← List.countP_eq_length_filter]
    have hfun : ((fun (r : ParsedRow) => r.date_time.isSome) ∘ fun p : Nat × RawRow =>
        ({ idx := p.1, raw := p.2,
           date_time := (getCell p.2 "date_time").bind parseTs } : ParsedRow))
        = (fun p : Nat × RawRow => ((getCell p.2 "date_time").bind parseTs).isSome) := rfl
    rw [hfun]
    exact countP_enum (fun r => ((getCell r "date_time").bind parseTs).isSome) t.rows

/-- Witness for C2: the pipeline on the concrete `demoTable` produces
`demoDf`, which is sorted, fully re-indexed, and has both parseable-
timestamp rows and no others. -/
theorem normalizer_sorted_reindexed_no_null_ts_witness :
    List.Sorted tsLe (demoDf.rows.map (fun r => r.date_time)) ∧
    (∀ r ∈ demoDf.rows, r.date_time.isSome) ∧
    demoDf.rows.map (fun r => r.idx) = List.range demoDf.rows.length ∧
    demoDf.rows.length =
      (demoTable.rows.filter
        (fun r => ((getCell r "date_time").bind demoTs).isSome)).length :=
  normalizer_sorted_reindexed_no_null_ts demoTs demoNum demoTable demoDf rfl

/-- C3: during normalization, every column other than `id_logger` and
`date_time` is coerced cellwise to numeric — a cell that fails coercion
becomes null while its row is retained: the coercion step keeps exactly
the rows that survived the timestamp drop, and only rewrites their
cells. -/
theorem coercion_nulls_cells_keeps_rows (parseTs : String → Option Int)
    (parseNum : String → Option ℚ) (t : RawTable) :
    (coercedRows parseTs parseNum t).length = (droppedRows parseTs t).length ∧
    ∀ r ∈ coercedRows parseTs parseNum t, ∃ s ∈ droppedRows parseTs t,
      r.idx = s.idx ∧ r.date_time = s.date_time ∧
      r.nums = (numericCols t.cols).map (fun c => (c, (getCell s.raw c).bind parseNum)) := by
  constructor
  · exact List.length_map _ _
  · intro r hr
    obtain ⟨s, hs, rfl⟩ := List.mem_map.mp hr
    exact ⟨s, hs, rfl, rfl, rfl⟩

/-- Witness for C3: in `demoTable` the row whose `tt4_avg` cell is the
unparseable "zz" survives the coercion step with that single cell
nulled. -/
theorem coercion_nulls_cells_keeps_rows_witness :
    demoNullCellRow ∈ coercedRows demoTs demoNum demoTable ∧
    ∃ s ∈ droppedRows demoTs demoTable, demoNullCellRow.idx = s.idx ∧
      demoNullCellRow.date_time = s.date_time ∧
      demoNullCellRow.nums =
        (numericCols demoTable.cols).map
          (fun c => (c, (getCell s.raw c).bind demoNum)) :=
  ⟨by decide,
    (coercion_nulls_cells_keeps_rows demoTs demoNum demoTable).2
      demoNullCellRow (by decide)⟩

/-- C8: when anything in the CSV Normalizer's parsing raises (for
example the required `date_time` column is missing), the loader reports
the failure with the underlying cause and hands back no data, and the
caller treats that as "no data available" instead of crashing. -/
theorem load_failure_reports_no_data (parseTs : String → Option Int)
    (parseNum : String → Option ℚ) (t : RawTable) (e : PyError)
    (h : normalizePipeline parseTs parseNum t = Except.error e) :
    loadMicroclimateData parseTs parseNum t =
      { data := none, shownError := some ("Failed to process file: " ++ pyErrorMsg e) } ∧
    mainHasData (loadMicroclimateData parseTs parseNum t) = false := by
  constructor <;> simp [loadMicroclimateData, mainHasData, h]

/-- Witness for C8: a table without a `date_time` column makes the
pipeline raise `KeyError("date_time")`, and the loader reports it while
the caller sees no data. -/
theorem load_failure_reports_no_data_witness :
    loadMicroclimateData demoTs demoNum demoNoDateTimeTable =
      { data := none,
        shownError := some ("Failed to process file: "
          ++ pyErrorMsg (PyError.keyError "date_time")) } ∧
    mainHasData (loadMicroclimateData demoTs demoNum demoNoDateTimeTable) = false :=
  load_failure_reports_no_data demoTs demoNum demoNoDateTimeTable
    (PyError.keyError "date_time") rfl

/-- C4: the Metadata Normalizer drops exactly the rows whose latitude or
longitude is null or fails numeric coercion, and preserves every other
row — including rows with a null `id_site` or `th_pengadaan` — and every
surviving row has both coordinates defined and numeric. -/
theorem metadata_drops_exactly_bad_coords (parseNum : String → Option ℚ)
    (rows : List RawSiteRow) :
    (∀ r ∈ load_site_metadata parseNum rows, r.latitude.isSome ∧ r.longitude.isSome) ∧
    (∀ raw ∈ rows,
      (coerceSiteRow parseNum raw).latitude.isSome →
      (coerceSiteRow parseNum raw).longitude.isSome →
        coerceSiteRow parseNum raw ∈ load_site_metadata parseNum rows) ∧
    (∀ r ∈ load_site_metadata parseNum rows, ∃ raw ∈ rows, r = coerceSiteRow parseNum raw) ∧
    (load_site_metadata parseNum rows).length =
      (rows.filter (fun raw => (raw.latitude.bind parseNum).isSome
        && (raw.longitude.bind parseNum).isSome)).length := by
  refine ⟨?_, ?_, ?_, ?_⟩
  · intro r hr
    have h := (List.mem_filter.mp hr).2
    simpa using h
  · intro raw hraw hlat hlon
    refine List.mem_filter.mpr ⟨List.mem_map_of_mem _ hraw, ?_⟩
    simp [hlat, hlon]
  · intro r hr
    have h := (List.mem_filter.mp hr).1
    obtain ⟨raw, hraw, hEq⟩ := List.mem_map.mp h
    exact ⟨raw, hraw, hEq.symm⟩
  · unfold load_site_metadata
    rw [List.filter_map, List.length_map]
    rfl

/-- Witness for C4: of three concrete records, the one with empty
`id_site` and `th_pengadaan` but valid coordinates survives, while the
one with an unparseable latitude is dropped, leaving 2 of 3 rows. -/
theorem metadata_drops_exactly_bad_coords_witness :
    coerceSiteRow demoNum demoSiteNullYear ∈
      load_site_metadata demoNum [demoSiteGood, demoSiteNullYear, demoSiteBadLat] ∧
    (load_site_metadata demoNum [demoSiteGood, demoSiteNullYear, demoSiteBadLat]).length
      = 2 :=
  ⟨(metadata_drops_exactly_bad_coords demoNum
      [demoSiteGood, demoSiteNullYear, demoSiteBadLat]).2.1 demoSiteNullYear
      (by decide) (by decide) (by decide),
   by decide⟩

/-- Counterexample for C5: the wind-direction chart's y series is the
`wd4_avg` column, not the `wd4_now` column the claim names — on a frame
where the two differ, the emitted series is the averaged one. -/
theorem wind_chart_now_counterexample :
    create_wind_direction_chart demoWindDf "4" = Except.ok
      { trace := { x := [some 1], y := [some 200], mode := "markers" },
        hlines := [360, 270, 180, 90, 0],
        yaxisRange := (0, 360) } ∧
    colNums demoWindDf "wd4_now" = Except.ok [some 10] ∧
    ([some (200 : ℚ)] ≠ [some (10 : ℚ)]) := by
  refine ⟨rfl, rfl, by decide⟩

/-- C5 (amended): for a given height, the wind-direction chart emits a
scatter of the averaged (`wd{height}_avg`) wind-direction value over
time — not the `_now` value — with the axis bounded to [0, 360] and
horizontal reference gridlines at 360, 270, 180, 90, 0 (the set
{0, 90, 180, 270, 360}). -/
theorem wind_chart_plots_avg_bounded (df : SensorDf) (height : String)
    (hdt : "date_time" ∈ df.cols) (hwd : ("wd" ++ height ++ "_avg") ∈ df.cols) :
    create_wind_direction_chart df height = Except.ok
      { trace := { x := df.rows.map (fun r => r.date_time),
                   y := df.rows.map
                     (fun r => (r.nums.lookup ("wd" ++ height ++ "_avg")).getD none),
                   mode := "markers" },
        hlines := [360, 270, 180, 90, 0],
        yaxisRange := (0, 360) } ∧
    (([360, 270, 180, 90, 0] : List ℚ)).reverse = [0, 90, 180, 270, 360] := by
  constructor
  · simp [create_wind_direction_chart, colTs, colNums, hdt, hwd, Bind.bind, Except.bind,
      Pure.pure, Except.pure]
  · rfl

/-- Witness for C5: the amended statement applied to the concrete
one-row frame, where the scatter indeed shows 200 (the avg), not 10
(the now). -/
theorem wind_chart_plots_avg_bounded_witness :
    create_wind_direction_chart demoWindDf "4" = Except.ok
      { trace := { x := [some 1], y := [some 200], mode := "markers" },
        hlines := [360, 270, 180, 90, 0],
        yaxisRange := (0, 360) } :=
  (wind_chart_plots_avg_bounded demoWindDf "4" (by decide) (by decide)).1

theorem tsLe_refl (o : Option Int) : tsLe o o := by
  cases o <;> simp [tsLe]

theorem mem_of_getLast?_eq {α : Type} :
    ∀ (l : List α) (b : α), l.getLast? = some b → b ∈ l := by
  intro l
  induction l with
  | nil => intro b hb; simp at hb
  | cons a rest ih =>
    intro b hb
    cases rest with
    | nil =>
      rw [List.getLast?_singleton] at hb
      cases hb
      exact List.mem_cons_self _ _
    | cons c rest2 =>
      rw [List.getLast?_cons_cons] at hb
      exact List.mem_cons_of_mem _ (ih b hb)

theorem sorted_rowLe_getLast :
    ∀ (l : List SensorRow), List.Sorted rowLe l → ∀ b, l.getLast? = some b →
      ∀ r ∈ l, tsLe r.date_time b.date_time := by
  intro l
  induction l with
  | nil => intro _ b _ r hr; exact absurd hr (List.not_mem_nil r)
  | cons a rest ih =>
    intro hs b hb r hr
    cases rest with
    | nil =>
      rw [List.getLast?_singleton] at hb
      cases hb
      rcases List.mem_singleton.mp hr with rfl
      exact tsLe_refl _
    | cons c rest2 =>
      rw [List.getLast?_cons_cons] at hb
      rcases List.mem_cons.mp hr with rfl | hr2
      · exact (List.sorted_cons.mp hs).1 b (mem_of_getLast?_eq _ b hb)
      · exact ih (List.sorted_cons.mp hs).2 b hb r hr2

theorem pipeline_rows_sorted (parseTs : String → Option Int)
    (parseNum : String → Option ℚ) (t : RawTable) (df : SensorDf)
    (h : normalizePipeline parseTs parseNum t = Except.ok df) :
    List.Sorted rowLe df.rows := by
  unfold normalizePipeline at h
  by_cases hdt : "date_time" ∈ t.cols
  swap
  · rw [if_neg hdt] at h
    exact absurd h (by simp)
  rw [if_pos hdt] at h
  cases h
  have hs : List.Sorted rowLe
      (List.insertionSort rowLe (coercedRows parseTs parseNum t)) :=
    List.sorted_insertionSort rowLe _
  unfold reindexRows
  refine List.pairwise_map.mpr ?_
  have h2 : List.Pairwise rowLe
      ((List.insertionSort rowLe (coercedRows parseTs parseNum t)).enum.map Prod.snd) := by
    rw [List.enum_map_snd]
    exact hs
  exact (@List.pairwise_map (Nat × SensorRow) SensorRow Prod.snd rowLe
    ((List.insertionSort rowLe (coercedRows parseTs parseNum t)).enum)).mp h2

/-- C6: the Vertical Profile builder extracts min/avg/max from the row
at the latest timestamp for the three heights and emits three series
against heights [4, 7, 10] on the vertical axis; on any frame produced
by the Normalizer, the row it uses (`df.iloc[-1]`) is indeed the one
with the maximal timestamp. -/
theorem vertical_profile_extracts_latest :
    (∀ (df : SensorDf) (p : String) (latest : SensorRow),
      df.rows.getLast? = some latest →
      (∀ c ∈ neededProfileCols p, c ∈ df.cols) →
      create_vertical_profile_chart df p = Except.ok
        { heights := [4, 7, 10]
          minSeries := [(latest.nums.lookup (p ++ "4_min")).getD none,
                        (latest.nums.lookup (p ++ "7_min")).getD none,
                        (latest.nums.lookup (p ++ "10_min")).getD none]
          avgSeries := [(latest.nums.lookup (p ++ "4_avg")).getD none,
                        (latest.nums.lookup (p ++ "7_avg")).getD none,
                        (latest.nums.lookup (p ++ "10_avg")).getD none]
          maxSeries := [(latest.nums.lookup (p ++ "4_max")).getD none,
                        (latest.nums.lookup (p ++ "7_max")).getD none,
                        (latest.nums.lookup (p ++ "10_max")).getD none] }) ∧
    (∀ (parseTs : String → Option Int) (parseNum : String → Option ℚ) (t : RawTable)
      (df : SensorDf) (latest : SensorRow),
      normalizePipeline parseTs parseNum t = Except.ok df →
      df.rows.getLast? = some latest →
      ∀ r ∈ df.rows, tsLe r.date_time latest.date_time) := by
  constructor
  · intro df p latest hlast hcols
    have h1 : (p ++ "4_min") ∈ df.cols := hcols _ (by simp [neededProfileCols])
    have h2 : (p ++ "7_min") ∈ df.cols := hcols _ (by simp [neededProfileCols])
    have h3 : (p ++ "10_min") ∈ df.cols := hcols _ (by simp [neededProfileCols])
    have h4 : (p ++ "4_avg") ∈ df.cols := hcols _ (by simp [neededProfileCols])
    have h5 : (p ++ "7_avg") ∈ df.cols := hcols _ (by simp [neededProfileCols])
    have h6 : (p ++ "10_avg") ∈ df.cols := hcols _ (by simp [neededProfileCols])
    have h7 : (p ++ "4_max") ∈ df.cols := hcols _ (by simp [neededProfileCols])
    have h8 : (p ++ "7_max") ∈ df.cols := hcols _ (by simp [neededProfileCols])
    have h9 : (p ++ "10_max") ∈ df.cols := hcols _ (by simp [neededProfileCols])
    simp [create_vertical_profile_chart, rowGet, hlast, h1, h2, h3, h4, h5, h6, h7, h8, h9,
      Bind.bind, Except.bind, Pure.pure, Except.pure]
  · intro parseTs parseNum t df latest h hlast r hr
    exact sorted_rowLe_getLast df.rows
      (pipeline_rows_sorted parseTs parseNum t df h) latest hlast r hr

/-- Witness for C6: the spec's concrete example — given the latest row
with tt4 (20, 24, 28), tt7 (19, 23, 27) and tt10 (18, 22, 26), the
builder produces min = [20, 19, 18], avg = [24, 23, 22] and
max = [28, 27, 26] against heights [4, 7, 10]. -/
theorem vertical_profile_extracts_latest_witness :
    create_vertical_profile_chart demoProfileDf "tt" = Except.ok
      { heights := [4, 7, 10]
        minSeries := [some 20, some 19, some 18]
        avgSeries := [some 24, some 23, some 22]
        maxSeries := [some 28, some 27, some 26] } :=
  vertical_profile_extracts_latest.1 demoProfileDf "tt"
    { idx := 0, date_time := some 1, id_logger := some "log",
      nums := [("tt4_min", some 20), ("tt4_avg", some 24), ("tt4_max", some 28),
               ("tt7_min", some 19), ("tt7_avg", some 23), ("tt7_max", some 27),
               ("tt10_min", some 18), ("tt10_avg", some 22), ("tt10_max", some 26)] }
    rfl (by decide)

/-- Counterexample for C7: two refutations on concrete tables.  First,
with two rows carrying the same site id 7 and 7 selected, BOTH markers
get the highlighted style — the builder marks every matching row, not
"exactly one".  Second, a table holding a row with a null (NaN) site id
— which the Metadata Normalizer retains when its coordinates are valid —
makes `int(site["id_site"])` raise `ValueError` even though the selected
id 7 matches no row, refuting "no marker is highlighted and the builder
does not raise" without the numeric-site-id proviso. -/
theorem map_highlight_duplicate_counterexample :
    create_indonesia_map [demoDupSiteA, demoDupSiteB] 7 = Except.ok
      [ { lat := some 1, lon := some 2, color := "red", icon := "star" },
        { lat := some 3, lon := some 4, color := "red", icon := "star" } ] ∧
    ([ ({ lat := some 1, lon := some 2, color := "red", icon := "star" } : Marker),
       { lat := some 3, lon := some 4, color := "red", icon := "star" } ].countP
      (fun m => m.color == "red" && m.icon == "star")) ≠ 1 ∧
    ([demoNullIdSite].countP (fun r => r.id_site.map ratTrunc == some 7) = 0) ∧
    create_indonesia_map [demoNullIdSite] 7 =
      Except.error (PyError.valueError "cannot convert float NaN to integer") := by
  have h7 : ratTrunc (7 : ℚ) = 7 := by norm_num [ratTrunc]
  refine ⟨?_, by decide, by decide, rfl⟩
  · simp [create_indonesia_map, mapMarkers, markerFor, pyInt, demoDupSiteA, demoDupSiteB,
      h7, Bind.bind, Except.bind, Pure.pure, Except.pure, Except.map]

/-- C7 (amended): given a metadata table in which every row has a
numeric site id, the Map Builder does not raise and produces one marker
per row, each at its own row's coordinates, with the highlighted style
(red star) exactly on the rows whose site id (truncated to an integer)
equals the selected id and the default style (blue info-sign) on all
others; hence the number of highlighted markers equals the number of
matching rows — exactly one when exactly one row matches — and when the
selected id matches no row, every marker has the default style. -/
theorem map_highlights_every_matching_row :
    ∀ (df : List SiteRow) (sel : Int), (∀ r ∈ df, r.id_site.isSome) →
      create_indonesia_map df sel = Except.ok (df.map (claimMarker sel)) ∧
      (df.map (claimMarker sel)).countP (fun m => m.color == "red" && m.icon == "star")
        = df.countP (fun r => r.id_site.map ratTrunc == some sel) ∧
      (df.countP (fun r => r.id_site.map ratTrunc == some sel) = 0 →
        ∀ m ∈ df.map (claimMarker sel), m.color = "blue" ∧ m.icon = "info-sign") := by
  intro df sel h
  have hmap : ∀ (l : List SiteRow), (∀ r ∈ l, r.id_site.isSome) →
      mapMarkers sel l = Except.ok (l.map (claimMarker sel)) := by
    intro l
    induction l with
    | nil => intro _; rfl
    | cons site rest ih =>
      intro hl
      obtain ⟨q, hq⟩ := Option.isSome_iff_exists.mp (hl site (List.mem_cons_self _ _))
      have hrest := ih (fun r hr => hl r (List.mem_cons_of_mem _ hr))
      by_cases hsel : ratTrunc q = sel
      · simp [mapMarkers, markerFor, pyInt, claimMarker, hq, hsel, hrest,
          Bind.bind, Except.bind, Pure.pure, Except.pure, Except.map]
      · simp [mapMarkers, markerFor, pyInt, claimMarker, hq, hsel, hrest,
          Bind.bind, Except.bind, Pure.pure, Except.pure, Except.map]
  have hfun : ((fun m : Marker => m.color == "red" && m.icon == "star") ∘ claimMarker sel)
      = (fun r : SiteRow => r.id_site.map ratTrunc == some sel) := by
    funext site
    by_cases hm : site.id_site.map ratTrunc = some sel
    · simp [claimMarker, hm]
    · simp [claimMarker, hm]
  refine ⟨?_, ?_, ?_⟩
  · simp only [create_indonesia_map]
    exact hmap df h
  · rw [List.countP_map, hfun]
  · intro hc m hm
    obtain ⟨site, hsite, rfl⟩ := List.mem_map.mp hm
    have hnm : ¬ site.id_site.map ratTrunc = some sel := by
      intro hm2
      exact (List.countP_eq_zero.mp hc site hsite) (by simp [hm2])
    simp [claimMarker, hnm]

/-- Witness for C7: on three sites with distinct ids 1, 2, 3 selecting
id 2, the builder returns exactly the three markers at the three rows'
own coordinates, with only the second one — the matching site, at
coordinates (3, 4) — highlighted. -/
theorem map_highlights_every_matching_row_witness :
    create_indonesia_map demoSites 2 = Except.ok
      [ Marker.mk (some 1) (some 2) "blue" "info-sign",
        Marker.mk (some 3) (some 4) "red" "star",
        Marker.mk (some 5) (some 6) "blue" "info-sign" ] := by
  have h := (map_highlights_every_matching_row demoSites 2 (by decide)).1
  rw [h]
  have h1 : ratTrunc (1 : ℚ) = 1 := by norm_num [ratTrunc]
  have h2 : ratTrunc (2 : ℚ) = 2 := by norm_num [ratTrunc]
  have h3 : ratTrunc (3 : ℚ) = 3 := by norm_num [ratTrunc]
  simp [demoSites, claimMarker, h1, h2, h3]

/-- Counterexample for C9: on a frame missing the `tt4_avg` column, the
temperature chart builder fails with the plain pandas
`KeyError("tt4_avg")`, not with the `MissingColumnError` the claim
promises. -/
theorem temp_chart_missing_column_counterexample :
    create_temperature_comparison_chart demoMissingColDf
      = Except.error (PyError.keyError "tt4_avg") ∧
    (Except.error (PyError.keyError "tt4_avg") : Except PyError (List Trace))
      ≠ Except.error (PyError.missingColumnError "tt4_avg") := by
  refine ⟨rfl, by simp⟩

/-- C9 (amended): a chart builder given a table missing one of its
expected columns fails with the generic pandas `KeyError` naming an
absent expected column (the temperature comparison builder and the
vertical profile builder shown here); no `MissingColumnError` type
exists in the code. -/
theorem builders_fail_with_plain_keyerror :
    (∀ (df : SensorDf) (c : String), c ∈ neededTempCols → c ∉ df.cols →
      ∃ c2 ∈ neededTempCols, c2 ∉ df.cols ∧
        create_temperature_comparison_chart df = Except.error (PyError.keyError c2)) ∧
    (∀ (df : SensorDf) (p : String) (latest : SensorRow) (c : String),
      df.rows.getLast? = some latest →
      c ∈ neededProfileCols p → c ∉ df.cols →
      ∃ c2 ∈ neededProfileCols p, c2 ∉ df.cols ∧
        create_vertical_profile_chart df p = Except.error (PyError.keyError c2)) := by
  constructor
  · intro df c hc hcabs
    by_cases h0 : "date_time" ∈ df.cols
    swap
    · exact ⟨"date_time", by decide, h0, by
        simp [create_temperature_comparison_chart, tempTracesAt, colTs, h0,
          Bind.bind, Except.bind]⟩
    by_cases h1 : "tt4_avg" ∈ df.cols
    swap
    · exact ⟨"tt4_avg", by decide, h1, by
        simp [create_temperature_comparison_chart, tempTracesAt, colTs, colNums, h0, h1,
          Bind.bind, Except.bind]⟩
    by_cases h2 : "tt4_max" ∈ df.cols
    swap
    · exact ⟨"tt4_max", by decide, h2, by
        simp [create_temperature_comparison_chart, tempTracesAt, colTs, colNums, h0, h1, h2,
          Bind.bind, Except.bind]⟩
    by_cases h3 : "tt4_min" ∈ df.cols
    swap
    · exact ⟨"tt4_min", by decide, h3, by
        simp [create_temperature_comparison_chart, tempTracesAt, colTs, colNums, h0, h1, h2,
          h3, Bind.bind, Except.bind]⟩
    by_cases h4 : "tt7_avg" ∈ df.cols
    swap
    · exact ⟨"tt7_avg", by decide, h4, by
        simp [create_temperature_comparison_chart, tempTracesAt, colTs, colNums, h0, h1, h2,
          h3, h4, Bind.bind, Except.bind, Pure.pure, Except.pure]⟩
    by_cases h5 : "tt7_max" ∈ df.cols
    swap
    · exact ⟨"tt7_max", by decide, h5, by
        simp [create_temperature_comparison_chart, tempTracesAt, colTs, colNums, h0, h1, h2,
          h3, h4, h5, Bind.bind, Except.bind, Pure.pure, Except.pure]⟩
    by_cases h6 : "tt7_min" ∈ df.cols
    swap
    · exact ⟨"tt7_min", by decide, h6, by
        simp [create_temperature_comparison_chart, tempTracesAt, colTs, colNums, h0, h1, h2,
          h3, h4, h5, h6, Bind.bind, Except.bind, Pure.pure, Except.pure]⟩
    by_cases h7 : "tt10_avg" ∈ df.cols
    swap
    · exact ⟨"tt10_avg", by decide, h7, by
        simp [create_temperature_comparison_chart, tempTracesAt, colTs, colNums, h0, h1, h2,
          h3, h4, h5, h6, h7, Bind.bind, Except.bind, Pure.pure, Except.pure]⟩
    by_cases h8 : "tt10_max" ∈ df.cols
    swap
    · exact ⟨"tt10_max", by decide, h8, by
        simp [create_temperature_comparison_chart, tempTracesAt, colTs, colNums, h0, h1, h2,
          h3, h4, h5, h6, h7, h8, Bind.bind, Except.bind, Pure.pure, Except.pure]⟩
    by_cases h9 : "tt10_min" ∈ df.cols
    swap
    · exact ⟨"tt10_min", by decide, h9, by
        simp [create_temperature_comparison_chart, tempTracesAt, colTs, colNums, h0, h1, h2,
          h3, h4, h5, h6, h7, h8, h9, Bind.bind, Except.bind, Pure.pure, Except.pure]⟩
    exfalso
    simp [neededTempCols] at hc
    rcases hc with rfl | rfl | rfl | rfl | rfl | rfl | rfl | rfl | rfl | rfl
    · exact hcabs h0
    · exact hcabs h1
    · exact hcabs h2
    · exact hcabs h3
    · exact hcabs h4
    · exact hcabs h5
    · exact hcabs h6
    · exact hcabs h7
    · exact hcabs h8
    · exact hcabs h9
  · intro df p latest c hlast hc hcabs
    by_cases h1 : (p ++ "4_min") ∈ df.cols
    swap
    · exact ⟨p ++ "4_min", by simp [neededProfileCols], h1, by
        simp [create_vertical_profile_chart, rowGet, hlast, h1, Bind.bind, Except.bind]⟩
    by_cases h2 : (p ++ "7_min") ∈ df.cols
    swap
    · exact ⟨p ++ "7_min", by simp [neededProfileCols], h2, by
        simp [create_vertical_profile_chart, rowGet, hlast, h1, h2, Bind.bind, Except.bind]⟩
    by_cases h3 : (p ++ "10_min") ∈ df.cols
    swap
    · exact ⟨p ++ "10_min", by simp [neededProfileCols], h3, by
        simp [create_vertical_profile_chart, rowGet, hlast, h1, h2, h3,
          Bind.bind, Except.bind]⟩
    by_cases h4 : (p ++ "4_avg") ∈ df.cols
    swap
    · exact ⟨p ++ "4_avg", by simp [neededProfileCols], h4, by
        simp [create_vertical_profile_chart, rowGet, hlast, h1, h2, h3, h4,
          Bind.bind, Except.bind]⟩
    by_cases h5 : (p ++ "7_avg") ∈ df.cols
    swap
    · exact ⟨p ++ "7_avg", by simp [neededProfileCols], h5, by
        simp [create_vertical_profile_chart, rowGet, hlast, h1, h2, h3, h4, h5,
          Bind.bind, Except.bind]⟩
    by_cases h6 : (p ++ "10_avg") ∈ df.cols
    swap
    · exact ⟨p ++ "10_avg", by simp [neededProfileCols], h6, by
        simp [create_vertical_profile_chart, rowGet, hlast, h1, h2, h3, h4, h5, h6,
          Bind.bind, Except.bind]⟩
    by_cases h7 : (p ++ "4_max") ∈ df.cols
    swap
    · exact ⟨p ++ "4_max", by simp [neededProfileCols], h7, by
        simp [create_vertical_profile_chart, rowGet, hlast, h1, h2, h3, h4, h5, h6, h7,
          Bind.bind, Except.bind]⟩
    by_cases h8 : (p ++ "7_max") ∈ df.cols
    swap
    · exact ⟨p ++ "7_max", by simp [neededProfileCols], h8, by
        simp [create_vertical_profile_chart, rowGet, hlast, h1, h2, h3, h4, h5, h6, h7, h8,
          Bind.bind, Except.bind]⟩
    by_cases h9 : (p ++ "10_max") ∈ df.cols
    swap
    · exact ⟨p ++ "10_max", by simp [neededProfileCols], h9, by
        simp [create_vertical_profile_chart, rowGet, hlast, h1, h2, h3, h4, h5, h6, h7, h8,
          h9, Bind.bind, Except.bind]⟩
    exfalso
    simp [neededProfileCols] at hc
    rcases hc with rfl | rfl | rfl | rfl | rfl | rfl | rfl | rfl | rfl
    · exact hcabs h1
    · exact hcabs h2
    · exact hcabs h3
    · exact hcabs h4
    · exact hcabs h5
    · exact hcabs h6
    · exact hcabs h7
    · exact hcabs h8
    · exact hcabs h9

/-- Witness for C9: on the concrete frame whose only column is
`date_time`, the temperature builder fails with a `KeyError` naming an
absent expected column. -/
theorem builders_fail_with_plain_keyerror_witness :
    ∃ c2 ∈ neededTempCols, c2 ∉ demoMissingColDf.cols ∧
      create_temperature_comparison_chart demoMissingColDf
        = Except.error (PyError.keyError c2) :=
  builders_fail_with_plain_keyerror.1 demoMissingColDf "tt4_avg" (by decide) (by decide)
